import Mathlib

/-!
Verification development for the govfleet-command dispatch core.

The definitions below are a shallow embedding of the TypeScript source:

* the status enums and record interfaces of `types.ts`;
* the App-level handlers of the main component file
  (`handleCreateTrip`, `handleTripUpdate`, `handleReportIncident`,
  `handleRequestAction`, `addAuditLog`);
* the body of the telemetry-tick `useEffect` (`tickVehicle`).

React state updates (`setX(prev => ...)`) are modelled as explicit state
passing on an `AppState` record; the state-update queue of one handler is
the sequential composition of the individual updates, and reads such as
`trips.find(...)` read the pre-handler snapshot, exactly as React delivers
them inside a single event handler.  `Date.now()` / `new Date()` values are
passed in as an opaque `now : String`.  `Math.random()` draws of the tick
are passed in as a `TickRng` record, one field per draw site.  JavaScript
numbers are modelled as `Rat`; `toFixed(1)` + `parseFloat` is modelled by
`roundTenth` (round half away from zero is what `toFixed` does on the
decimal values arising here, and coincides with floor of 10q + 1/2).
Optional fields are `Option`; the template-literal rendering of a possibly
`undefined` string is `optStr`.
-/

inductive VehicleStatus
  | ACTIVE
  | MAINTENANCE
  | OUT_OF_SERVICE
  | ON_MISSION
deriving DecidableEq

inductive TripStatus
  | SCHEDULED
  | DISPATCHED
  | EN_ROUTE_PICKUP
  | ARRIVED_PICKUP
  | IN_PROGRESS
  | COMPLETED
  | CANCELLED
  | RESCHEDULED
deriving DecidableEq

inductive IncidentSeverity
  | LOW
  | MEDIUM
  | HIGH
  | CRITICAL
deriving DecidableEq

/-- `UserProfile.status` union: ONLINE | OFFLINE | BUSY | ON_LEAVE. -/
inductive UserStatus
  | ONLINE
  | OFFLINE
  | BUSY
  | ON_LEAVE
deriving DecidableEq

/-- `Incident.status` union: OPEN | ACKNOWLEDGED | RESOLVED | INVESTIGATING. -/
inductive IncidentStatus
  | OPEN
  | ACKNOWLEDGED
  | RESOLVED
  | INVESTIGATING
deriving DecidableEq

/-- `IncomingRequest.status` union: PENDING | APPROVED | REJECTED. -/
inductive RequestStatus
  | PENDING
  | APPROVED
  | REJECTED
deriving DecidableEq

/-- Priority union used by trips and requests: STANDARD | URGENT | VIP. -/
inductive Priority
  | STANDARD
  | URGENT
  | VIP
deriving DecidableEq

structure Coordinates where
  x : ℚ
  y : ℚ
deriving DecidableEq

structure Vehicle where
  id : String
  vin : String
  plate : String
  model : String
  vtype : String
  status : VehicleStatus
  location : Coordinates
  speed : ℚ
  fuelLevel : ℚ
  lastPing : String
  assignedDriverId : Option String
  department : String
  mileage : ℚ
  nextServiceDate : String
  standbyTime : Option ℚ
  etaMinutes : Option ℚ
deriving DecidableEq

structure UserProfile where
  id : String
  name : String
  status : UserStatus
deriving DecidableEq

structure TripFeedback where
  rating : Nat
  comment : String
  vehicleIssuesDetected : Bool
deriving DecidableEq

structure Trip where
  id : String
  unitId : String
  vehicleId : Option String
  driverId : Option String
  passengerName : String
  pickupLocation : String
  dropoffLocation : String
  pickupTime : String
  status : TripStatus
  priority : Priority
  estimatedDurationMin : ℚ
  notes : Option String
  feedback : Option TripFeedback
deriving DecidableEq

structure Incident where
  id : String
  vehicleId : String
  driverId : String
  severity : IncidentSeverity
  category : String
  description : String
  timestamp : String
  status : IncidentStatus
  assignedToId : Option String
deriving DecidableEq

structure IncomingRequest where
  id : String
  requestorName : String
  passengerCount : Nat
  pickupLocation : String
  dropoffLocation : String
  requestedTime : String
  priority : Priority
  status : RequestStatus
  notes : Option String
deriving DecidableEq

structure AuditLogEntry where
  id : String
  timestamp : String
  actorId : String
  action : String
  details : String
deriving DecidableEq

/-- The React component state relevant to the dispatch core: the entity
collections, the audit ledger, the logged-in user and the unit name from
`settings` (the only settings field the handlers read). -/
structure AppState where
  vehicles : List Vehicle
  users : List UserProfile
  trips : List Trip
  incidents : List Incident
  incomingRequests : List IncomingRequest
  auditLogs : List AuditLogEntry
  currentUser : UserProfile
  unitName : String
deriving DecidableEq

/-- Template-literal rendering of a possibly `undefined` string value. -/
def optStr (o : Option String) : String := o.getD "undefined"

/-- `addAuditLog`: builds an entry from `Date.now()` and prepends it to the
ledger list (`setAuditLogs(prev => [newLog, ...prev])`): the newest entry is
the head of the list. -/
def addAuditLog (now actorId action details : String) (s : AppState) : AppState :=
  { s with auditLogs :=
      { id := "al-" ++ now, timestamp := now, actorId := actorId,
        action := action, details := details } :: s.auditLogs }

/-- One `Math.random()` draw per call site of the telemetry tick body,
each field named after the expression it feeds. -/
structure TickRng where
  moveX : ℚ
  moveY : ℚ
  missionSpeedRand : ℚ
  stayRand : ℚ
  activeSpeedRand : ℚ
deriving DecidableEq

/-- `parseFloat(q.toFixed(1))`: round to one decimal, ties away from zero
for the nonnegative values arising here; `⌊10q + 1/2⌋ / 10` matches the
ECMAScript `toFixed` rounding on exact decimal inputs. -/
def roundTenth (q : ℚ) : ℚ := ((Int.floor (10 * q + 1/2) : ℤ) : ℚ) / 10

/-- Body of the per-vehicle map inside the realtime-simulation `useEffect`:
ACTIVE and ON_MISSION vehicles get a perturbed clamped position, a new
speed / standby time, and an ETA decremented by 0.1 (only while positive)
then floored at 0 after `toFixed(1)`; all other vehicles are returned
untouched. -/
def tickVehicle (rng : TickRng) (v : Vehicle) : Vehicle :=
  let newEta := v.etaMinutes.getD 0
  if v.status = VehicleStatus.ACTIVE ∨ v.status = VehicleStatus.ON_MISSION then
    let newX := min 100 (max 0 (v.location.x + rng.moveX))
    let newY := min 100 (max 0 (v.location.y + rng.moveY))
    if v.status = VehicleStatus.ON_MISSION then
      { v with location := { x := newX, y := newY },
               speed := 45 + ((Int.floor (rng.missionSpeedRand * 10) : ℤ) : ℚ),
               standbyTime := some 0,
               etaMinutes := some (max 0 (roundTenth
                 (if newEta > 0 then newEta - 1/10 else newEta))) }
    else if rng.stayRand > 3/5 then
      { v with location := { x := newX, y := newY },
               speed := 0,
               standbyTime := some (v.standbyTime.getD 0 + 1),
               etaMinutes := some (max 0 (roundTenth newEta)) }
    else
      { v with location := { x := newX, y := newY },
               speed := 20 + ((Int.floor (rng.activeSpeedRand * 20) : ℤ) : ℚ),
               standbyTime := some 0,
               etaMinutes := some (max 0 (roundTenth newEta)) }
  else v

/-- One firing of the simulation interval: `setVehicles(prev => prev.map(...))`,
with the random draws of each vehicle's iteration supplied by `rng`. -/
def telemetryTick (rng : String → TickRng) (s : AppState) : AppState :=
  { s with vehicles := s.vehicles.map (fun v => tickVehicle (rng v.id) v) }

/-- `handleCreateTrip`: prepends the wizard's trip object, marks a given
driver BUSY, marks a given vehicle ON_MISSION with
`etaMinutes = tripData.estimatedDurationMin`, and writes one
DISPATCH_CREATED ledger entry.  There is no admission-control check and no
failure path in the source. -/
def handleCreateTrip (tripData : Trip) (now : String) (s : AppState) : AppState :=
  let s1 := { s with trips := tripData :: s.trips }
  let s2 := match tripData.driverId with
    | some d =>
      let users2 := s1.users.map (fun u =>
        if u.id = d then { u with status := UserStatus.BUSY } else u)
      { s1 with users := users2 }
    | none => s1
  let s3 := match tripData.vehicleId with
    | some vid =>
      let vehicles2 := s2.vehicles.map (fun v =>
        if v.id = vid then
          { v with status := VehicleStatus.ON_MISSION,
                   etaMinutes := some tripData.estimatedDurationMin }
        else v)
      { s2 with vehicles := vehicles2 }
    | none => s2
  addAuditLog now s.currentUser.id "DISPATCH_CREATED"
    ("Trip " ++ tripData.id ++ " created for vehicle " ++ optStr tripData.vehicleId) s3

/-- `handleTripUpdate`: writes the new status (and the feedback argument,
which overwrites any stored feedback) on the matching trip; if the update
is COMPLETED or CANCELLED it unconditionally frees the trip's driver
(→ ONLINE) and vehicle (→ ACTIVE, etaMinutes 0) and writes a TRIP_COMPLETED
entry, preceded by a TRIP_FEEDBACK entry when the feedback flags vehicle
issues; on IN_PROGRESS it writes a TRIP_STARTED entry; any other status
writes nothing to the ledger.  A missing trip id leaves the state alone
(the map matches nothing and the handler returns before logging). -/
def handleTripUpdate (tripId : String) (newStatus : TripStatus)
    (feedback : Option TripFeedback) (now : String) (s : AppState) : AppState :=
  let trips2 := s.trips.map (fun t =>
    if t.id = tripId then { t with status := newStatus, feedback := feedback } else t)
  let s1 := { s with trips := trips2 }
  match s.trips.find? (fun t => decide (t.id = tripId)) with
  | none => s1
  | some trip =>
    if newStatus = TripStatus.COMPLETED ∨ newStatus = TripStatus.CANCELLED then
      let s2 := match trip.driverId with
        | some d =>
          let users2 := s1.users.map (fun u =>
            if u.id = d then { u with status := UserStatus.ONLINE } else u)
          { s1 with users := users2 }
        | none => s1
      let s3 := match trip.vehicleId with
        | some vid =>
          let vehicles2 := s2.vehicles.map (fun v =>
            if v.id = vid then
              { v with status := VehicleStatus.ACTIVE, etaMinutes := some 0 }
            else v)
          { s2 with vehicles := vehicles2 }
        | none => s2
      let logMsg := "Trip " ++ trip.id ++ " completed by driver " ++ optStr trip.driverId ++ "."
      match feedback with
      | some fb =>
        let logMsg2 := logMsg ++ " Rating: " ++ toString fb.rating ++ "/5. Notes: " ++ fb.comment
        let s4 :=
          if fb.vehicleIssuesDetected then
            addAuditLog now s.currentUser.id "TRIP_FEEDBACK"
              ("Driver reported vehicle issues for Trip " ++ trip.id ++ ". Creating maintenance flag.") s3
          else s3
        addAuditLog now s.currentUser.id "TRIP_COMPLETED" logMsg2 s4
      | none =>
        addAuditLog now s.currentUser.id "TRIP_COMPLETED" logMsg s3
    else if newStatus = TripStatus.IN_PROGRESS then
      addAuditLog now s.currentUser.id "TRIP_STARTED"
        ("Trip " ++ trip.id ++ " passenger onboard.") s1
    else s1

/-- `handleReportIncident`: resolves the reporting driver's vehicle via
`assignedDriverId`, always stores a new OPEN incident (vehicleId
"UNKNOWN" when no vehicle resolves), and on CRITICAL severity with a
resolved vehicle forces that vehicle OUT_OF_SERVICE and writes a
CRITICAL_ALERT entry; an INCIDENT_REPORTED entry is written last in every
case.  There is no failure path. -/
def handleReportIncident (itype : String) (severity : IncidentSeverity)
    (notes : Option String) (now : String) (s : AppState) : AppState :=
  let vehicle := s.vehicles.find? (fun v => decide (v.assignedDriverId = some s.currentUser.id))
  let newIncident : Incident :=
    { id := "inc-" ++ now,
      vehicleId := (vehicle.map Vehicle.id).getD "UNKNOWN",
      driverId := s.currentUser.id,
      severity := severity,
      category := itype,
      description := notes.getD ("Driver reported " ++ itype ++ " issue via mobile app."),
      timestamp := now,
      status := IncidentStatus.OPEN,
      assignedToId := none }
  let s1 := { s with incidents := newIncident :: s.incidents }
  let s2 :=
    match vehicle with
    | some veh =>
      if severity = IncidentSeverity.CRITICAL then
        let vehicles2 := s1.vehicles.map (fun v =>
          if v.id = veh.id then { v with status := VehicleStatus.OUT_OF_SERVICE } else v)
        addAuditLog now s.currentUser.id "CRITICAL_ALERT"
          ("Vehicle " ++ veh.id ++ " marked OUT_OF_SERVICE due to critical incident.")
          { s1 with vehicles := vehicles2 }
      else s1
    | none => s1
  addAuditLog now s.currentUser.id "INCIDENT_REPORTED"
    ("Incident " ++ newIncident.id ++ " reported by " ++ s.currentUser.name) s2

inductive RequestActionKind
  | APPROVE
  | REJECT
deriving DecidableEq

/-- `handleRequestAction`: a missing request id returns with no change at
all.  REJECT first shows a `window.confirm` dialog (modelled by the
`confirmReject` flag) — declined means no change; confirmed writes a
REQUEST_REJECTED entry and filters the request out.  APPROVE builds a new
unassigned SCHEDULED trip from the request's fields, prepends it, filters
the request out, and writes a REQUEST_APPROVED entry.  The request's
`status` field is never written; resolution is deletion from the list. -/
def handleRequestAction (id : String) (action : RequestActionKind)
    (confirmReject : Bool) (now : String) (s : AppState) : AppState :=
  match s.incomingRequests.find? (fun r => decide (r.id = id)) with
  | none => s
  | some request =>
    match action with
    | RequestActionKind.REJECT =>
      if confirmReject then
        let s1 := addAuditLog now s.currentUser.id "REQUEST_REJECTED"
          ("Incoming request from " ++ request.requestorName ++ " was rejected by "
            ++ s.currentUser.name ++ ".") s
        { s1 with incomingRequests := s1.incomingRequests.filter (fun r => decide (r.id ≠ id)) }
      else s
    | RequestActionKind.APPROVE =>
      let newTrip : Trip :=
        { id := "t-" ++ now,
          unitId := s.unitName,
          passengerName := request.requestorName,
          pickupLocation := request.pickupLocation,
          dropoffLocation := request.dropoffLocation,
          pickupTime := request.requestedTime,
          status := TripStatus.SCHEDULED,
          priority := request.priority,
          estimatedDurationMin := 45,
          notes := some (match request.notes with
            | some n => "Request Note: " ++ n
            | none => "Generated from Incoming Request."),
          vehicleId := none,
          driverId := none,
          feedback := none }
      let s1 := { s with trips := newTrip :: s.trips,
                         incomingRequests := s.incomingRequests.filter (fun r => decide (r.id ≠ id)) }
      addAuditLog now s.currentUser.id "REQUEST_APPROVED"
        ("Incoming request from " ++ request.requestorName ++ " approved. Mission "
          ++ newTrip.id ++ " scheduled.") s1

/-- Driver fixture: the logged-in driver of the running mission. -/
def duser : UserProfile :=
  { id := "d1", name := "Dana", status := UserStatus.BUSY }

/-- Vehicle fixture: on mission, assigned to driver d1, 12 minutes of ETA. -/
def veh1 : Vehicle :=
  { id := "v1", vin := "VIN1", plate := "GOV-1", model := "Suburban", vtype := "SUV",
    status := VehicleStatus.ON_MISSION, location := { x := 50, y := 50 },
    speed := 45, fuelLevel := 80, lastPing := "now", assignedDriverId := some "d1",
    department := "HQ", mileage := 1000, nextServiceDate := "2026-01-01",
    standbyTime := some 0, etaMinutes := some 12 }

/-- Trip fixture: in progress, assigned to v1 / d1. -/
def trip1 : Trip :=
  { id := "t1", unitId := "Ops Alpha", vehicleId := some "v1", driverId := some "d1",
    passengerName := "Senator Doe", pickupLocation := "A", dropoffLocation := "B",
    pickupTime := "09:00", status := TripStatus.IN_PROGRESS, priority := Priority.VIP,
    estimatedDurationMin := 30, notes := none, feedback := none }

/-- Base fixture state: one mission in progress, driver d1 logged in. -/
def st0 : AppState :=
  { vehicles := [veh1], users := [duser], trips := [trip1], incidents := [],
    incomingRequests := [], auditLogs := [], currentUser := duser,
    unitName := "Ops Alpha" }

/-- Vehicle fixture for admission-control scenarios: already on a mission. -/
def veh2 : Vehicle :=
  { veh1 with id := "v2", plate := "GOV-2", assignedDriverId := none }

/-- Trip payload a dispatch wizard submit would hand to `handleCreateTrip`
while v2 is still ON_MISSION. -/
def tripData2 : Trip :=
  { trip1 with
      id := "t2"
      vehicleId := some "v2"
      driverId := some "d1"
      status := TripStatus.DISPATCHED }

/-- State for the double-dispatch scenario: v2 is still ON_MISSION. -/
def st2 : AppState :=
  { st0 with vehicles := [veh2], trips := [] }

/-- Already-completed trip, for the double-completion scenario. -/
def tripDone : Trip := { trip1 with status := TripStatus.COMPLETED }

/-- v1 locked out by a critical incident after its trip completed. -/
def vehOOS : Vehicle := { veh1 with status := VehicleStatus.OUT_OF_SERVICE }

/-- State for the double-completion scenario: the trip is already terminal
and the vehicle meanwhile went OUT_OF_SERVICE. -/
def st3 : AppState := { st0 with trips := [tripDone], vehicles := [vehOOS] }

/-- State in which no vehicle resolves for the reporting driver. -/
def st5 : AppState := { st0 with vehicles := [] }

/-- Pending incoming-request fixture. -/
def req3 : IncomingRequest :=
  { id := "req-3", requestorName := "Secret Service Detail", passengerCount := 3,
    pickupLocation := "North Portico", dropoffLocation := "JBA Tarmac",
    requestedTime := "10:00", priority := Priority.VIP,
    status := RequestStatus.PENDING, notes := none }

/-- State holding one pending request. -/
def st6 : AppState := { st0 with incomingRequests := [req3] }

/-- Completion feedback that flags vehicle issues. -/
def fbIssues : TripFeedback :=
  { rating := 4, comment := "brakes soft", vehicleIssuesDetected := true }

/-- A concrete draw of the tick's random values. -/
def rng0 : TickRng :=
  { moveX := 1/4, moveY := -1/4, missionSpeedRand := 1/2, stayRand := 1/2,
    activeSpeedRand := 1/2 }

/-- A vehicle sitting in MAINTENANCE. -/
def vehM : Vehicle := { veh1 with id := "v3", status := VehicleStatus.MAINTENANCE }

/-- The locked-out vehicle after the unconditional completion release. -/
def vehReleased : Vehicle :=
  { vehOOS with status := VehicleStatus.ACTIVE, etaMinutes := some 0 }

/-- v2 after the wizard dispatch that ignored its ON_MISSION status. -/
def veh2Dispatched : Vehicle :=
  { veh2 with status := VehicleStatus.ON_MISSION, etaMinutes := some 30 }

/-- Element characterisation for the update-by-predicate maps the handlers
use: every element of `l.map (fun v => if c v then f v else v)` is the image
of an element that satisfied the predicate, or an untouched element that
did not. -/
theorem map_update_mem {α : Type} (l : List α) (c : α → Prop) [DecidablePred c]
    (f : α → α) :
    ∀ w ∈ l.map (fun v => if c v then f v else v),
      (∃ v, v ∈ l ∧ c v ∧ w = f v) ∨ (∃ v, v ∈ l ∧ ¬ c v ∧ w = v) := by
  intro w hw
  rcases List.mem_map.mp hw with ⟨v, hv, hvw⟩
  by_cases hc : c v
  · left
    exact ⟨v, hv, hc, by rw [← hvw, if_pos hc]⟩
  · right
    exact ⟨v, hv, hc, by rw [← hvw, if_neg hc]⟩

/-- `roundTenth` never overshoots by more than half a tenth. -/
theorem roundTenth_le (q : ℚ) : roundTenth q ≤ q + 1/20 := by
  have h : ((Int.floor (10 * q + 1/2) : ℤ) : ℚ) ≤ 10 * q + 1/2 := Int.floor_le _
  unfold roundTenth
  linarith

/-- `roundTenth` of zero is zero. -/
theorem roundTenth_zero : roundTenth 0 = 0 := by
  norm_num [roundTenth]


/-- Claim C7: for every vehicle whose status is ON_MISSION (with the
nonnegative ETA every reachable store satisfies), a single telemetry tick
never increases `etaMinutes`: the post-tick value is at most the pre-tick
value and never below 0. -/
theorem tick_eta_monotone (rng : TickRng) (v : Vehicle)
    (hstat : v.status = VehicleStatus.ON_MISSION)
    (hpos : 0 ≤ v.etaMinutes.getD 0) :
    (tickVehicle rng v).etaMinutes.getD 0 ≤ v.etaMinutes.getD 0 ∧
      0 ≤ (tickVehicle rng v).etaMinutes.getD 0 := by
  have hred : (tickVehicle rng v).etaMinutes
      = some (max 0 (roundTenth
          (if v.etaMinutes.getD 0 > 0 then v.etaMinutes.getD 0 - 1/10
           else v.etaMinutes.getD 0))) := by
    simp [tickVehicle, hstat]
  rw [hred]
  simp only [Option.getD_some]
  refine ⟨?_, le_max_left 0 _⟩
  by_cases hgt : v.etaMinutes.getD 0 > 0
  · rw [if_pos hgt]
    have h1 := roundTenth_le (v.etaMinutes.getD 0 - 1/10)
    exact max_le hpos (by linarith)
  · have he0 : v.etaMinutes.getD 0 = 0 := le_antisymm (not_lt.mp hgt) hpos
    rw [if_neg hgt, he0, roundTenth_zero]
    simp

/-- Witness for C7 at the concrete on-mission fixture. -/
theorem tick_eta_monotone_witness :
    veh1.status = VehicleStatus.ON_MISSION ∧ 0 ≤ veh1.etaMinutes.getD 0 ∧
      ((tickVehicle rng0 veh1).etaMinutes.getD 0 ≤ veh1.etaMinutes.getD 0 ∧
        0 ≤ (tickVehicle rng0 veh1).etaMinutes.getD 0) :=
  ⟨rfl, by decide, tick_eta_monotone rng0 veh1 rfl (by decide)⟩

/-- Claim C8: a telemetry tick returns MAINTENANCE and OUT_OF_SERVICE
vehicles entirely unchanged, and for a vehicle of any status it never
writes the `status` field — nor any field other than location, speed,
standbyTime and etaMinutes. -/
theorem tick_frame (rng : TickRng) (v : Vehicle) :
    ((v.status = VehicleStatus.MAINTENANCE ∨ v.status = VehicleStatus.OUT_OF_SERVICE) →
      tickVehicle rng v = v) ∧
    (tickVehicle rng v).status = v.status ∧
    (tickVehicle rng v).id = v.id ∧
    (tickVehicle rng v).vin = v.vin ∧
    (tickVehicle rng v).plate = v.plate ∧
    (tickVehicle rng v).model = v.model ∧
    (tickVehicle rng v).vtype = v.vtype ∧
    (tickVehicle rng v).fuelLevel = v.fuelLevel ∧
    (tickVehicle rng v).lastPing = v.lastPing ∧
    (tickVehicle rng v).assignedDriverId = v.assignedDriverId ∧
    (tickVehicle rng v).department = v.department ∧
    (tickVehicle rng v).mileage = v.mileage ∧
    (tickVehicle rng v).nextServiceDate = v.nextServiceDate := by
  cases hv : v.status <;>
    (simp [tickVehicle, hv]; all_goals split_ifs <;> simp)

/-- Witness for C8: the MAINTENANCE fixture passes through the tick
untouched, and the tick leaves the on-mission fixture's status alone. -/
theorem tick_frame_witness :
    tickVehicle rng0 vehM = vehM ∧ (tickVehicle rng0 veh1).status = veh1.status :=
  ⟨(tick_frame rng0 vehM).1 (Or.inl rfl), (tick_frame rng0 veh1).2.1⟩

/-- Terminal `handleTripUpdate` on a found trip that references vehicle
`vid` rewrites the vehicle list with the unconditional release map,
whatever the driver, the feedback and the vehicle's current status. -/
theorem tripUpdate_complete_vehicles (s : AppState) (tripId now : String)
    (trip : Trip) (vid : String) (feedback : Option TripFeedback)
    (newStatus : TripStatus)
    (hfind : s.trips.find? (fun t => decide (t.id = tripId)) = some trip)
    (hveh : trip.vehicleId = some vid)
    (hterm : newStatus = TripStatus.COMPLETED ∨ newStatus = TripStatus.CANCELLED) :
    (handleTripUpdate tripId newStatus feedback now s).vehicles
      = s.vehicles.map (fun v =>
          if v.id = vid then
            { v with status := VehicleStatus.ACTIVE, etaMinutes := some 0 }
          else v) := by
  rcases hterm with rfl | rfl <;>
    rcases hdrv : trip.driverId with _ | d <;>
    rcases feedback with _ | fb <;>
    simp [handleTripUpdate, hfind, hveh, hdrv, addAuditLog, apply_ite]

/-- Terminal `handleTripUpdate` on a found trip that references driver `d`
rewrites the user list with the unconditional driver-release map. -/
theorem tripUpdate_complete_users (s : AppState) (tripId now : String)
    (trip : Trip) (d : String) (feedback : Option TripFeedback)
    (newStatus : TripStatus)
    (hfind : s.trips.find? (fun t => decide (t.id = tripId)) = some trip)
    (hdrv : trip.driverId = some d)
    (hterm : newStatus = TripStatus.COMPLETED ∨ newStatus = TripStatus.CANCELLED) :
    (handleTripUpdate tripId newStatus feedback now s).users
      = s.users.map (fun u =>
          if u.id = d then { u with status := UserStatus.ONLINE } else u) := by
  rcases hterm with rfl | rfl <;>
    rcases hveh : trip.vehicleId with _ | vid <;>
    rcases feedback with _ | fb <;>
    simp [handleTripUpdate, hfind, hveh, hdrv, addAuditLog, apply_ite]

/-- Audit actions appended by a terminal `handleTripUpdate` on a found
trip: one TRIP_COMPLETED entry, preceded chronologically by a
TRIP_FEEDBACK entry exactly when the feedback flags vehicle issues (with
the prepend ledger, TRIP_COMPLETED ends up at the head). -/
theorem tripUpdate_complete_logs (s : AppState) (tripId now : String)
    (trip : Trip) (feedback : Option TripFeedback) (newStatus : TripStatus)
    (hfind : s.trips.find? (fun t => decide (t.id = tripId)) = some trip)
    (hterm : newStatus = TripStatus.COMPLETED ∨ newStatus = TripStatus.CANCELLED) :
    (handleTripUpdate tripId newStatus feedback now s).auditLogs.map AuditLogEntry.action
      = (match feedback with
         | some fb =>
           if fb.vehicleIssuesDetected then ["TRIP_COMPLETED", "TRIP_FEEDBACK"]
           else ["TRIP_COMPLETED"]
         | none => ["TRIP_COMPLETED"]) ++ s.auditLogs.map AuditLogEntry.action := by
  rcases hterm with rfl | rfl <;>
    rcases hveh : trip.vehicleId with _ | vid <;>
    rcases hdrv : trip.driverId with _ | d <;>
    rcases feedback with _ | fb <;>
    simp [handleTripUpdate, hfind, hveh, hdrv, addAuditLog] <;>
    by_cases hissue : fb.vehicleIssuesDetected <;>
    simp [hissue]

/-- `handleTripUpdate` on a trip id that is not in the store only replays
the no-match trip map: every other component of the state is untouched and
no ledger entry is written. -/
theorem tripUpdate_not_found (s : AppState) (tripId now : String)
    (feedback : Option TripFeedback) (newStatus : TripStatus)
    (hfind : s.trips.find? (fun t => decide (t.id = tripId)) = none) :
    (handleTripUpdate tripId newStatus feedback now s).vehicles = s.vehicles ∧
    (handleTripUpdate tripId newStatus feedback now s).users = s.users ∧
    (handleTripUpdate tripId newStatus feedback now s).auditLogs = s.auditLogs := by
  simp [handleTripUpdate, hfind]

/-- Claim C1 (counterexample): after `reportIncident` with severity
CRITICAL has set the mission vehicle OUT_OF_SERVICE, a `completeTrip` on
that same trip resets the vehicle to ACTIVE — the OUT_OF_SERVICE status
does not survive, contradicting the claimed safety override. -/
theorem c1_lockout_lost_counterexample :
    ((handleReportIncident "MECHANICAL" IncidentSeverity.CRITICAL none "1" st0).vehicles.map
        Vehicle.status = [VehicleStatus.OUT_OF_SERVICE]) ∧
    ((handleTripUpdate "t1" TripStatus.COMPLETED none "2"
        (handleReportIncident "MECHANICAL" IncidentSeverity.CRITICAL none "1" st0)).trips.map
        Trip.status = [TripStatus.COMPLETED]) ∧
    ((handleTripUpdate "t1" TripStatus.COMPLETED none "2"
        (handleReportIncident "MECHANICAL" IncidentSeverity.CRITICAL none "1" st0)).users.map
        UserProfile.status = [UserStatus.ONLINE]) ∧
    ((handleTripUpdate "t1" TripStatus.COMPLETED none "2"
        (handleReportIncident "MECHANICAL" IncidentSeverity.CRITICAL none "1" st0)).vehicles.map
        Vehicle.status = [VehicleStatus.ACTIVE]) ∧
    ¬ ((handleTripUpdate "t1" TripStatus.COMPLETED none "2"
        (handleReportIncident "MECHANICAL" IncidentSeverity.CRITICAL none "1" st0)).vehicles.map
        Vehicle.status = [VehicleStatus.OUT_OF_SERVICE]) := by
  decide

/-- Claim C1 (amended): `completeTrip`/`cancelTrip` moves the trip to the
terminal state and releases the resources unconditionally: the trip's
vehicle is set ACTIVE with etaMinutes 0 whatever its current status —
including OUT_OF_SERVICE from an unresolved CRITICAL incident. -/
theorem c1_complete_releases_locked_vehicle (s : AppState)
    (tripId now : String) (trip : Trip) (vid : String)
    (feedback : Option TripFeedback)
    (hfind : s.trips.find? (fun t => decide (t.id = tripId)) = some trip)
    (hveh : trip.vehicleId = some vid) :
    ∀ w ∈ (handleTripUpdate tripId TripStatus.COMPLETED feedback now s).vehicles,
      w.id = vid → w.status = VehicleStatus.ACTIVE ∧ w.etaMinutes = some 0 := by
  intro w hw hid
  rw [tripUpdate_complete_vehicles s tripId now trip vid feedback
    TripStatus.COMPLETED hfind hveh (Or.inl rfl)] at hw
  rcases map_update_mem s.vehicles (fun v => v.id = vid) _ w hw with
    ⟨v, _, _, rfl⟩ | ⟨v, _, hc, rfl⟩
  · exact ⟨rfl, rfl⟩
  · exact absurd hid hc

/-- Witness for the amended C1 at a concrete OUT_OF_SERVICE vehicle. -/
theorem c1_complete_releases_locked_vehicle_witness :
    vehReleased.status = VehicleStatus.ACTIVE ∧ vehReleased.etaMinutes = some 0 :=
  c1_complete_releases_locked_vehicle st3 "t1" "9" tripDone "v1" none
    (by decide) (by decide) vehReleased (by decide) (by decide)

/-- Claim C3 (counterexample): a second `completeTrip` on the already
COMPLETED trip of `st3` is not rejected — there is no error result in the
code — and it does NOT leave the vehicle record unchanged: the vehicle,
meanwhile OUT_OF_SERVICE, is written back to ACTIVE, and one more
TRIP_COMPLETED ledger entry is appended. -/
theorem c3_double_complete_counterexample :
    (st3.trips.map Trip.status = [TripStatus.COMPLETED]) ∧
    ¬ ((handleTripUpdate "t1" TripStatus.COMPLETED none "8" st3).vehicles
        = st3.vehicles) ∧
    ((handleTripUpdate "t1" TripStatus.COMPLETED none "8" st3).vehicles.map
        Vehicle.status = [VehicleStatus.ACTIVE]) ∧
    ((handleTripUpdate "t1" TripStatus.COMPLETED none "8" st3).auditLogs.map
        AuditLogEntry.action = ["TRIP_COMPLETED"]) := by
  decide

/-- Claim C3 (amended): a `completeTrip` on a trip that is already
COMPLETED is not rejected (the code has no IllegalTransition result); it
performs the release again — driver set ONLINE, vehicle set ACTIVE with
etaMinutes 0 regardless of what their statuses have become since — and
appends one more TRIP_COMPLETED audit entry. -/
theorem c3_second_complete_repeats_release (s : AppState)
    (tripId now : String) (trip : Trip) (vid d : String)
    (hfind : s.trips.find? (fun t => decide (t.id = tripId)) = some trip)
    (_hdone : trip.status = TripStatus.COMPLETED)
    (hveh : trip.vehicleId = some vid)
    (hdrv : trip.driverId = some d) :
    (∀ w ∈ (handleTripUpdate tripId TripStatus.COMPLETED none now s).vehicles,
      w.id = vid → w.status = VehicleStatus.ACTIVE ∧ w.etaMinutes = some 0) ∧
    (∀ u ∈ (handleTripUpdate tripId TripStatus.COMPLETED none now s).users,
      u.id = d → u.status = UserStatus.ONLINE) ∧
    (handleTripUpdate tripId TripStatus.COMPLETED none now s).auditLogs.map
        AuditLogEntry.action
      = "TRIP_COMPLETED" :: s.auditLogs.map AuditLogEntry.action := by
  refine ⟨?_, ?_, ?_⟩
  · intro w hw hid
    rw [tripUpdate_complete_vehicles s tripId now trip vid none
      TripStatus.COMPLETED hfind hveh (Or.inl rfl)] at hw
    rcases map_update_mem s.vehicles (fun v => v.id = vid) _ w hw with
      ⟨v, _, _, rfl⟩ | ⟨v, _, hc, rfl⟩
    · exact ⟨rfl, rfl⟩
    · exact absurd hid hc
  · intro u hu hid
    rw [tripUpdate_complete_users s tripId now trip d none
      TripStatus.COMPLETED hfind hdrv (Or.inl rfl)] at hu
    rcases map_update_mem s.users (fun x => x.id = d) _ u hu with
      ⟨x, _, _, rfl⟩ | ⟨x, _, hc, rfl⟩
    · exact rfl
    · exact absurd hid hc
  · simpa using tripUpdate_complete_logs s tripId now trip none
      TripStatus.COMPLETED hfind (Or.inl rfl)

/-- Witness for the amended C3 at the st3 fixture. -/
theorem c3_second_complete_repeats_release_witness :
    (vehReleased.status = VehicleStatus.ACTIVE ∧ vehReleased.etaMinutes = some 0) ∧
    (handleTripUpdate "t1" TripStatus.COMPLETED none "8" st3).auditLogs.map
        AuditLogEntry.action
      = "TRIP_COMPLETED" :: st3.auditLogs.map AuditLogEntry.action := by
  have h := c3_second_complete_repeats_release st3 "t1" "8" tripDone "v1" "d1"
    (by decide) (by decide) (by decide) (by decide)
  exact ⟨h.1 vehReleased (by decide) (by decide), h.2.2⟩

/-- Claim C9 (counterexample): `completeTrip` with feedback that flags
vehicle issues appends TWO ledger entries (TRIP_FEEDBACK chronologically
first, then TRIP_COMPLETED), not the exactly one the claim asserts for
every completeTrip-with-feedback. -/
theorem c9_feedback_two_entries_counterexample :
    ((handleTripUpdate "t1" TripStatus.COMPLETED (some fbIssues) "7" st0).auditLogs.map
        AuditLogEntry.action = ["TRIP_COMPLETED", "TRIP_FEEDBACK"]) ∧
    ¬ ((handleTripUpdate "t1" TripStatus.COMPLETED (some fbIssues) "7" st0).auditLogs.length
        = st0.auditLogs.length + 1) := by
  decide

/-- Claim C9 (amended): a found `completeTrip` appends exactly one
TRIP_COMPLETED entry when the feedback is absent or does not flag vehicle
issues, and exactly two entries (TRIP_FEEDBACK then TRIP_COMPLETED) when
it does; a `completeTrip` on an unknown trip id appends zero entries, and
an intermediate advance (here EN_ROUTE_PICKUP) also appends zero even
though it mutates the trip. -/
theorem c9_tripUpdate_ledger_counts (s : AppState) (tripId now : String)
    (feedback : Option TripFeedback) :
    (∀ trip, s.trips.find? (fun t => decide (t.id = tripId)) = some trip →
      (handleTripUpdate tripId TripStatus.COMPLETED feedback now s).auditLogs.map
          AuditLogEntry.action
        = (match feedback with
           | some fb =>
             if fb.vehicleIssuesDetected then ["TRIP_COMPLETED", "TRIP_FEEDBACK"]
             else ["TRIP_COMPLETED"]
           | none => ["TRIP_COMPLETED"]) ++ s.auditLogs.map AuditLogEntry.action) ∧
    (s.trips.find? (fun t => decide (t.id = tripId)) = none →
      (handleTripUpdate tripId TripStatus.COMPLETED feedback now s).auditLogs
        = s.auditLogs) ∧
    (∀ trip, s.trips.find? (fun t => decide (t.id = tripId)) = some trip →
      (handleTripUpdate tripId TripStatus.EN_ROUTE_PICKUP feedback now s).auditLogs
        = s.auditLogs) := by
  refine ⟨?_, ?_, ?_⟩
  · intro trip hfind
    exact tripUpdate_complete_logs s tripId now trip feedback
      TripStatus.COMPLETED hfind (Or.inl rfl)
  · intro hfind
    exact (tripUpdate_not_found s tripId now feedback TripStatus.COMPLETED hfind).2.2
  · intro trip hfind
    simp [handleTripUpdate, hfind]

/-- Witness for the amended C9: the issue-flagging completion appends two
entries on the concrete fixture. -/
theorem c9_tripUpdate_ledger_counts_witness :
    (handleTripUpdate "t1" TripStatus.COMPLETED (some fbIssues) "7" st0).auditLogs.map
        AuditLogEntry.action
      = ["TRIP_COMPLETED", "TRIP_FEEDBACK"] := by
  have h := (c9_tripUpdate_ledger_counts st0 "t1" "7" (some fbIssues)).1 trip1 (by decide)
  simpa [st0, fbIssues] using h

/-- Claim C2 (counterexample): `createTrip` with a vehicle that is still
ON_MISSION does not fail — there is no ResourceUnavailable result and no
admission-control check in the code: the trip is created, the vehicle is
re-marked ON_MISSION, and a DISPATCH_CREATED ledger entry is appended. -/
theorem c2_no_admission_control_counterexample :
    (st2.vehicles.map Vehicle.status = [VehicleStatus.ON_MISSION]) ∧
    ((handleCreateTrip tripData2 "5" st2).trips = [tripData2]) ∧
    ¬ ((handleCreateTrip tripData2 "5" st2).trips = st2.trips) ∧
    ((handleCreateTrip tripData2 "5" st2).auditLogs.map AuditLogEntry.action
        = ["DISPATCH_CREATED"]) ∧
    ((handleCreateTrip tripData2 "5" st2).vehicles.map Vehicle.status
        = [VehicleStatus.ON_MISSION]) := by
  decide

/-- Claim C2 (amended): `createTrip` performs no admission control and
never fails: for every state and payload it prepends the trip, appends one
DISPATCH_CREATED entry, and wires any named driver to BUSY and any named
vehicle to ON_MISSION with etaMinutes = estimatedDurationMin — regardless
of the current vehicle or driver status. -/
theorem c2_createTrip_always_succeeds (tripData : Trip) (now : String) (s : AppState) :
    ((handleCreateTrip tripData now s).trips = tripData :: s.trips) ∧
    ((handleCreateTrip tripData now s).auditLogs.map AuditLogEntry.action
      = "DISPATCH_CREATED" :: s.auditLogs.map AuditLogEntry.action) ∧
    (∀ vid, tripData.vehicleId = some vid →
      ∀ w ∈ (handleCreateTrip tripData now s).vehicles, w.id = vid →
        w.status = VehicleStatus.ON_MISSION ∧
          w.etaMinutes = some tripData.estimatedDurationMin) ∧
    (∀ d, tripData.driverId = some d →
      ∀ u ∈ (handleCreateTrip tripData now s).users, u.id = d →
        u.status = UserStatus.BUSY) := by
  refine ⟨?_, ?_, ?_, ?_⟩
  · rcases hd : tripData.driverId with _ | d <;>
      rcases hv : tripData.vehicleId with _ | vid <;>
      simp [handleCreateTrip, addAuditLog, hd, hv]
  · rcases hd : tripData.driverId with _ | d <;>
      rcases hv : tripData.vehicleId with _ | vid <;>
      simp [handleCreateTrip, addAuditLog, hd, hv]
  · intro vid hv w hw hid
    rcases hd : tripData.driverId with _ | d <;>
    · simp only [handleCreateTrip, addAuditLog, hd, hv] at hw
      rcases map_update_mem s.vehicles (fun v => v.id = vid) _ w (by simpa using hw) with
        ⟨v, _, _, rfl⟩ | ⟨v, _, hc, rfl⟩
      · exact ⟨rfl, rfl⟩
      · exact absurd hid hc
  · intro d hd u hu hid
    rcases hv : tripData.vehicleId with _ | vid <;>
    · simp only [handleCreateTrip, addAuditLog, hd, hv] at hu
      rcases map_update_mem s.users (fun x => x.id = d) _ u (by simpa using hu) with
        ⟨x, _, _, rfl⟩ | ⟨x, _, hc, rfl⟩
      · exact rfl
      · exact absurd hid hc

/-- Witness for the amended C2: the double dispatch on the busy fixture. -/
theorem c2_createTrip_always_succeeds_witness :
    ((handleCreateTrip tripData2 "5" st2).trips = tripData2 :: st2.trips) ∧
    (veh2Dispatched.status = VehicleStatus.ON_MISSION ∧
      veh2Dispatched.etaMinutes = some tripData2.estimatedDurationMin) := by
  have h := c2_createTrip_always_succeeds tripData2 "5" st2
  exact ⟨h.1, h.2.2.1 "v2" (by decide) veh2Dispatched (by decide) (by decide)⟩

/-- Claim C4 (counterexample): on a CRITICAL report with a resolved
vehicle the two ledger entries are appended in the order CRITICAL_ALERT
first, INCIDENT_REPORTED second — the prepend ledger therefore ends
(chronologically first entry, deepest position) with CRITICAL_ALERT —
refuting the claimed INCIDENT_REPORTED-then-CRITICAL_ALERT append order. -/
theorem c4_audit_order_counterexample :
    ((handleReportIncident "MECHANICAL" IncidentSeverity.CRITICAL none "1" st0).auditLogs.map
        AuditLogEntry.action = ["INCIDENT_REPORTED", "CRITICAL_ALERT"]) ∧
    (((handleReportIncident "MECHANICAL" IncidentSeverity.CRITICAL none "1" st0).auditLogs.map
        AuditLogEntry.action).getLast? = some "CRITICAL_ALERT") ∧
    ¬ ((handleReportIncident "MECHANICAL" IncidentSeverity.CRITICAL none "1" st0).auditLogs.map
        AuditLogEntry.action = ["CRITICAL_ALERT", "INCIDENT_REPORTED"]) := by
  decide

/-- Claim C4 (amended): `reportIncident` always succeeds, and on CRITICAL
severity with a resolved vehicle it stores the new CRITICAL incident,
forces that vehicle OUT_OF_SERVICE, and appends exactly two ledger entries
— CRITICAL_ALERT written first, INCIDENT_REPORTED second, so the
newest-first ledger reads INCIDENT_REPORTED then CRITICAL_ALERT. -/
theorem c4_report_critical_two_entries (s : AppState) (itype : String)
    (notes : Option String) (now : String) (veh : Vehicle)
    (hfind : s.vehicles.find?
        (fun v => decide (v.assignedDriverId = some s.currentUser.id)) = some veh) :
    ((handleReportIncident itype IncidentSeverity.CRITICAL notes now s).incidents.map
        Incident.severity
      = IncidentSeverity.CRITICAL :: s.incidents.map Incident.severity) ∧
    (∀ w ∈ (handleReportIncident itype IncidentSeverity.CRITICAL notes now s).vehicles,
      w.id = veh.id → w.status = VehicleStatus.OUT_OF_SERVICE) ∧
    ((handleReportIncident itype IncidentSeverity.CRITICAL notes now s).auditLogs.map
        AuditLogEntry.action
      = "INCIDENT_REPORTED" :: "CRITICAL_ALERT" :: s.auditLogs.map AuditLogEntry.action) := by
  refine ⟨?_, ?_, ?_⟩
  · simp [handleReportIncident, addAuditLog, hfind]
  · intro w hw hid
    simp only [handleReportIncident, addAuditLog, hfind] at hw
    rcases map_update_mem s.vehicles (fun v => v.id = veh.id) _ w (by simpa using hw) with
      ⟨v, _, _, rfl⟩ | ⟨v, _, hc, rfl⟩
    · exact rfl
    · exact absurd hid hc
  · simp [handleReportIncident, addAuditLog, hfind]

/-- Witness for the amended C4 at the st0 fixture. -/
theorem c4_report_critical_two_entries_witness :
    (vehOOS.status = VehicleStatus.OUT_OF_SERVICE) ∧
    ((handleReportIncident "MECHANICAL" IncidentSeverity.CRITICAL none "1" st0).auditLogs.map
        AuditLogEntry.action
      = "INCIDENT_REPORTED" :: "CRITICAL_ALERT" :: st0.auditLogs.map AuditLogEntry.action) := by
  have h := c4_report_critical_two_entries st0 "MECHANICAL" none "1" veh1 (by decide)
  exact ⟨h.2.1 vehOOS (by decide) (by decide), h.2.2⟩

/-- Claim C5 (counterexample): a CRITICAL report with no resolvable
vehicle does NOT fail: the incident is stored anyway with vehicleId
"UNKNOWN", no vehicle is locked out, and a single INCIDENT_REPORTED entry
is appended — the mandated lockout is silently skipped. -/
theorem c5_unresolved_vehicle_counterexample :
    ((handleReportIncident "MECHANICAL" IncidentSeverity.CRITICAL none "4" st5).incidents.map
        Incident.vehicleId = ["UNKNOWN"]) ∧
    ((handleReportIncident "MECHANICAL" IncidentSeverity.CRITICAL none "4" st5).incidents.length
        = 1) ∧
    ((handleReportIncident "MECHANICAL" IncidentSeverity.CRITICAL none "4" st5).vehicles
        = st5.vehicles) ∧
    ((handleReportIncident "MECHANICAL" IncidentSeverity.CRITICAL none "4" st5).auditLogs.map
        AuditLogEntry.action = ["INCIDENT_REPORTED"]) := by
  decide

/-- Claim C5 (amended): when no vehicle resolves for the reporting driver,
a CRITICAL `reportIncident` still succeeds: the incident is recorded with
vehicleId "UNKNOWN", no vehicle status changes, no CRITICAL_ALERT entry is
written, and the single INCIDENT_REPORTED entry is appended. -/
theorem c5_critical_without_vehicle_still_recorded (s : AppState)
    (itype : String) (notes : Option String) (now : String)
    (hfind : s.vehicles.find?
        (fun v => decide (v.assignedDriverId = some s.currentUser.id)) = none) :
    ((handleReportIncident itype IncidentSeverity.CRITICAL notes now s).incidents.map
        Incident.vehicleId
      = "UNKNOWN" :: s.incidents.map Incident.vehicleId) ∧
    ((handleReportIncident itype IncidentSeverity.CRITICAL notes now s).vehicles
      = s.vehicles) ∧
    ((handleReportIncident itype IncidentSeverity.CRITICAL notes now s).auditLogs.map
        AuditLogEntry.action
      = "INCIDENT_REPORTED" :: s.auditLogs.map AuditLogEntry.action) := by
  refine ⟨?_, ?_, ?_⟩ <;> simp [handleReportIncident, addAuditLog, hfind]

/-- Witness for the amended C5 at the vehicle-less fixture. -/
theorem c5_critical_without_vehicle_still_recorded_witness :
    ((handleReportIncident "MECHANICAL" IncidentSeverity.CRITICAL none "4" st5).incidents.map
        Incident.vehicleId = "UNKNOWN" :: st5.incidents.map Incident.vehicleId) ∧
    ((handleReportIncident "MECHANICAL" IncidentSeverity.CRITICAL none "4" st5).vehicles
        = st5.vehicles) :=
  ⟨(c5_critical_without_vehicle_still_recorded st5 "MECHANICAL" none "4" (by decide)).1,
   (c5_critical_without_vehicle_still_recorded st5 "MECHANICAL" none "4" (by decide)).2.1⟩

/-- Claim C6 (counterexample): approving the pending request creates the
unassigned SCHEDULED trip and removes the request, but a `rejectRequest`
on the same id afterwards does NOT fail with AlreadyResolved — the code
has no such error: it finds no request and returns with the state exactly
unchanged and no ledger entry. -/
theorem c6_no_already_resolved_counterexample :
    ((handleRequestAction "req-3" RequestActionKind.APPROVE true "6" st6).trips.map
        Trip.status = TripStatus.SCHEDULED :: st6.trips.map Trip.status) ∧
    ((handleRequestAction "req-3" RequestActionKind.APPROVE true "6" st6).trips.head?.map
        Trip.vehicleId = some none) ∧
    ((handleRequestAction "req-3" RequestActionKind.APPROVE true "6" st6).trips.head?.map
        Trip.driverId = some none) ∧
    ((handleRequestAction "req-3" RequestActionKind.APPROVE true "6"
        st6).incomingRequests = []) ∧
    (handleRequestAction "req-3" RequestActionKind.REJECT true "7"
        (handleRequestAction "req-3" RequestActionKind.APPROVE true "6" st6)
      = handleRequestAction "req-3" RequestActionKind.APPROVE true "6" st6) := by
  decide

/-- Claim C6 (amended): `approveRequest` on a request present in the store
creates a new unassigned SCHEDULED trip, removes the request and appends
one REQUEST_APPROVED entry; but an action on an id that is no longer in
the store (e.g. rejectRequest after approveRequest) is a silent no-op —
the state is returned unchanged and no AlreadyResolved error exists. -/
theorem c6_request_resolution (s : AppState) (id now : String) :
    (s.incomingRequests.find? (fun r => decide (r.id = id)) = none →
      ∀ action confirm, handleRequestAction id action confirm now s = s) ∧
    (∀ request, s.incomingRequests.find? (fun r => decide (r.id = id)) = some request →
      ((handleRequestAction id RequestActionKind.APPROVE true now s).trips.head?.map
          Trip.status = some TripStatus.SCHEDULED) ∧
      ((handleRequestAction id RequestActionKind.APPROVE true now s).trips.head?.map
          Trip.vehicleId = some none) ∧
      ((handleRequestAction id RequestActionKind.APPROVE true now s).trips.head?.map
          Trip.driverId = some none) ∧
      ((handleRequestAction id RequestActionKind.APPROVE true now s).trips.length
          = s.trips.length + 1) ∧
      ((handleRequestAction id RequestActionKind.APPROVE true now s).incomingRequests
          = s.incomingRequests.filter (fun r => decide (r.id ≠ id))) ∧
      ((handleRequestAction id RequestActionKind.APPROVE true now s).auditLogs.map
          AuditLogEntry.action
        = "REQUEST_APPROVED" :: s.auditLogs.map AuditLogEntry.action)) := by
  constructor
  · intro hfind action confirm
    cases action <;> simp [handleRequestAction, hfind]
  · intro request hfind
    refine ⟨?_, ?_, ?_, ?_, ?_, ?_⟩ <;>
      simp [handleRequestAction, hfind, addAuditLog]

/-- Witness for the amended C6: the approve-then-reject run on the
pending-request fixture. -/
theorem c6_request_resolution_witness :
    ((handleRequestAction "req-3" RequestActionKind.APPROVE true "6" st6).trips.head?.map
        Trip.status = some TripStatus.SCHEDULED) ∧
    (handleRequestAction "req-3" RequestActionKind.REJECT true "7"
        (handleRequestAction "req-3" RequestActionKind.APPROVE true "6" st6)
      = handleRequestAction "req-3" RequestActionKind.APPROVE true "6" st6) := by
  refine ⟨((c6_request_resolution st6 "req-3" "6").2 req3 (by decide)).1, ?_⟩
  exact (c6_request_resolution
    (handleRequestAction "req-3" RequestActionKind.APPROVE true "6" st6) "req-3" "7").1
    (by decide) RequestActionKind.REJECT true

/-- Claim C10: request records are never mutated by `handleRequestAction`
— every surviving record is one of the input records, so a store of
PENDING requests stays all-PENDING (no APPROVED/REJECTED status is ever
written), and a resolving action (approve, or a confirmed reject) deletes
the record with that id from the store entirely. -/
theorem c10_resolved_requests_deleted (s : AppState) (id now : String)
    (action : RequestActionKind) (confirm : Bool) :
    (∀ r ∈ (handleRequestAction id action confirm now s).incomingRequests,
      r ∈ s.incomingRequests) ∧
    ((∀ r ∈ s.incomingRequests, r.status = RequestStatus.PENDING) →
      ∀ r ∈ (handleRequestAction id action confirm now s).incomingRequests,
        r.status = RequestStatus.PENDING) ∧
    ((action = RequestActionKind.APPROVE ∨ confirm = true) →
      ∀ r ∈ (handleRequestAction id action confirm now s).incomingRequests,
        r.id ≠ id) := by
  cases hfind : s.incomingRequests.find? (fun r => decide (r.id = id)) with
  | none =>
    have hres : handleRequestAction id action confirm now s = s := by
      cases action <;> simp [handleRequestAction, hfind]
    refine ⟨?_, ?_, ?_⟩
    · intro r hr; rw [hres] at hr; exact hr
    · intro hall r hr; rw [hres] at hr; exact hall r hr
    · intro _ r hr hid
      rw [hres] at hr
      have h2 := List.find?_eq_none.mp hfind r hr
      simp [hid] at h2
  | some request =>
    cases action with
    | APPROVE =>
      have hres : (handleRequestAction id RequestActionKind.APPROVE confirm now
            s).incomingRequests
          = s.incomingRequests.filter (fun r => decide (r.id ≠ id)) := by
        simp [handleRequestAction, hfind, addAuditLog]
      refine ⟨?_, ?_, ?_⟩
      · intro r hr; rw [hres] at hr; exact (List.mem_filter.mp hr).1
      · intro hall r hr; rw [hres] at hr; exact hall r (List.mem_filter.mp hr).1
      · intro _ r hr
        rw [hres] at hr
        exact of_decide_eq_true (List.mem_filter.mp hr).2
    | REJECT =>
      by_cases hc : confirm
      · have hres : (handleRequestAction id RequestActionKind.REJECT confirm now
              s).incomingRequests
            = s.incomingRequests.filter (fun r => decide (r.id ≠ id)) := by
          simp [handleRequestAction, hfind, addAuditLog, hc]
        refine ⟨?_, ?_, ?_⟩
        · intro r hr; rw [hres] at hr; exact (List.mem_filter.mp hr).1
        · intro hall r hr; rw [hres] at hr; exact hall r (List.mem_filter.mp hr).1
        · intro _ r hr
          rw [hres] at hr
          exact of_decide_eq_true (List.mem_filter.mp hr).2
      · have hres : handleRequestAction id RequestActionKind.REJECT confirm now s = s := by
          simp [handleRequestAction, hfind, hc]
        refine ⟨?_, ?_, ?_⟩
        · intro r hr; rw [hres] at hr; exact hr
        · intro hall r hr; rw [hres] at hr; exact hall r hr
        · intro h
          rcases h with h | h
          · exact absurd h (by simp)
          · exact absurd h (by simpa using hc)

/-- Witness for C10 at the pending-request fixture: an unconfirmed reject
leaves the (still PENDING, never rewritten) request in place. -/
theorem c10_resolved_requests_deleted_witness :
    req3 ∈ st6.incomingRequests ∧ req3.status = RequestStatus.PENDING := by
  have h := c10_resolved_requests_deleted st6 "req-3" "6" RequestActionKind.REJECT false
  exact ⟨h.1 req3 (by decide), h.2.1 (by decide) req3 (by decide)⟩
